import Mathlib

/-!
Verification development for the `smart_router` request-routing engine
(`src/smart_router/models.py`, `heuristics.py`, `classifier.py`, `router.py`).

The Python source is shallowly embedded: Python `float` values are modelled
as `ℚ` (the claims under study are order/equality properties on decimal
literals, where rational semantics agrees with the source's arithmetic),
Python dicts keyed by strings are modelled as insertion-ordered association
lists, and a Python function that can raise is modelled with an `Option`
codomain whose `none` means "an exception escapes".  Network / filesystem
effects (the LiteLLM backend, the YAML config file) are modelled as oracle
parameters describing the outcome of the corresponding call.
-/

namespace SmartRouter

/-- `class Tier(IntEnum): SMALL = 1; MEDIUM = 2; LARGE = 3` (models.py). -/
inductive Tier where
  | SMALL
  | MEDIUM
  | LARGE
deriving DecidableEq, Repr

/-- The integer value of a tier (`IntEnum` value). -/
def Tier.val : Tier → Nat
  | .SMALL => 1
  | .MEDIUM => 2
  | .LARGE => 3

instance : LT Tier := ⟨fun a b => a.val < b.val⟩

instance : LE Tier := ⟨fun a b => a.val ≤ b.val⟩

instance (a b : Tier) : Decidable (a < b) := by
  unfold instLTTier; exact Nat.decLt a.val b.val

instance (a b : Tier) : Decidable (a ≤ b) := by
  unfold instLETier; exact Nat.decLe a.val b.val

/-- Iteration order of `for fallback_tier in Tier` (definition order of the
`IntEnum`, ascending). -/
def tierList : List Tier := [.SMALL, .MEDIUM, .LARGE]

/-- Python truthiness of an optional float (`None` and `0.0` are falsy). -/
def pyTruthy : Option ℚ → Bool
  | some x => x ≠ 0
  | none => false

/-- Python `a or b` on optional floats: `a` if truthy, else `b`. -/
def pyOrOpt (a b : Option ℚ) : Option ℚ :=
  if pyTruthy a then a else b

/-- `@dataclass class ModelInfo` (models.py lines 28-38). -/
structure ModelInfo where
  id : String
  total_params : Option ℚ := none
  active_params : Option ℚ := none
  tier : Tier := .MEDIUM
  is_coder : Bool := false
deriving DecidableEq, Repr

/-- `ModelInfo.effective_params`: the Python expression
`self.total_params or self.active_params or 0.0`. -/
def ModelInfo.effective_params (m : ModelInfo) : ℚ :=
  (pyOrOpt (pyOrOpt m.total_params m.active_params) (some 0)).getD 0

/-- `@dataclass class ModelRegistry` (models.py lines 41-44); the dict
`models` is modelled as an insertion-ordered association list. -/
structure ModelRegistry where
  models : List (String × ModelInfo) := []
  last_refresh : ℚ := 0
deriving DecidableEq, Repr

/-- `by_tier` (models.py lines 46-47): all registry values of a given tier,
in dict (insertion) order. -/
def ModelRegistry.by_tier (r : ModelRegistry) (tier : Tier) : List ModelInfo :=
  (r.models.map Prod.snd).filter (fun m => m.tier = tier)

/-- Result of a Python `for`-loop that scans a list of candidate lists and
breaks at the first non-empty one; yields `[]` when all are empty (the loop
variable's final, empty value). -/
def firstNonempty : List (List ModelInfo) → List ModelInfo
  | [] => []
  | l :: rest => if l.isEmpty then firstNonempty rest else l

/-- `candidates` after the two fallback loops of `get_model_for_tier`
(models.py lines 50-64): the requested tier, else the first non-empty
strictly higher tier in ascending order, else the first non-empty strictly
lower tier in descending order. -/
def ModelRegistry.selectCandidates (r : ModelRegistry) (tier : Tier) : List ModelInfo :=
  let candidates := r.by_tier tier
  let candidates :=
    if candidates.isEmpty then
      firstNonempty (((tierList.filter (fun ft => tier < ft)).map r.by_tier))
    else candidates
  if candidates.isEmpty then
    firstNonempty (((tierList.reverse.filter (fun ft => ft < tier)).map r.by_tier))
  else candidates

/-- Python `max(lst, key=lambda m: m.effective_params)` on a possibly empty
list: `none` on `[]` (a `ValueError` in Python), otherwise the first
element attaining the maximal key (Python `max` keeps the earliest of
equals). -/
def maxStep (best m : ModelInfo) : ModelInfo :=
  if best.effective_params < m.effective_params then m else best

def pyMaxByEff : List ModelInfo → Option ModelInfo
  | [] => none
  | x :: xs => some (xs.foldl maxStep x)

/-- One iteration sequence of the adjacent-tier loop of
`get_model_for_tier` (models.py lines 79-83): for each tier in the given
order, if its non-coder slice is non-empty return that slice's largest
member, else continue. -/
def adjLoop (r : ModelRegistry) : List Tier → Option ModelInfo
  | [] => none
  | ft :: rest =>
      let adj_general := (r.by_tier ft).filter (fun m => !m.is_coder)
      if adj_general.isEmpty then adjLoop r rest else pyMaxByEff adj_general

/-- The adjacent-tier non-coder search of `get_model_for_tier`
(models.py lines 78-83): scan every tier other than the requested one in
enumeration order and return the largest non-coder of the first tier that
has one. -/
def ModelRegistry.adjSearch (r : ModelRegistry) (tier : Tier) : Option ModelInfo :=
  adjLoop r (tierList.filter (fun ft => ft ≠ tier))

/-- `get_model_for_tier` (models.py lines 49-86). -/
def ModelRegistry.get_model_for_tier (r : ModelRegistry) (tier : Tier)
    (prefer_coder : Bool) : Option ModelInfo :=
  let candidates := r.selectCandidates tier
  if candidates.isEmpty then none
  else if prefer_coder then
    let coders := candidates.filter (fun m => m.is_coder)
    if coders.isEmpty then pyMaxByEff candidates else pyMaxByEff coders
  else
    let general := candidates.filter (fun m => !m.is_coder)
    if general.isEmpty then
      match r.adjSearch tier with
      | some m => some m
      | none => pyMaxByEff candidates
    else pyMaxByEff general

/-! ### Parameter extraction (`_extract_params`, models.py lines 92-109)

The two regular expressions
`PARAM_PATTERN = (\d+(?:\.\d+)?)\s*[bB](?:\b|$)` and
`MOE_ACTIVE_PATTERN = [Aa](\d+(?:\.\d+)?)[bB]` are executed directly on
character lists, following Python `re` semantics (leftmost matches,
non-overlapping for `findall`, greedy quantifiers; backtracking is never
needed for these patterns since a digit can satisfy neither `\s` nor
`[bB]`). -/

/-- `\d` for the ASCII identifiers at hand. -/
def isDigitCh (c : Char) : Bool := c.isDigit

/-- `\s` (Python whitespace class, ASCII part). -/
def isSpaceCh (c : Char) : Bool :=
  c = ' ' ∨ c = '\t' ∨ c = '\n' ∨ c = '\r' ∨ c = Char.ofNat 11 ∨ c = Char.ofNat 12

/-- `\w` (word character) for `\b` boundaries on ASCII identifiers. -/
def isWordCh (c : Char) : Bool := c.isAlphanum ∨ c = '_'

/-- Numeric value of a run of decimal digits. -/
def digitsVal (l : List Char) : Nat :=
  l.foldl (fun acc c => 10 * acc + (c.toNat - '0'.toNat)) 0

/-- `float` of a captured group `<digits>` or `<digits>.<digits>`. -/
def decimalVal (intPart fracPart : List Char) : ℚ :=
  (digitsVal intPart : ℚ) + (digitsVal fracPart : ℚ) / ((10 : ℚ) ^ fracPart.length)

/-- `(?:\b|$)` after `[bB]`: end of input, or next character not a word
character. -/
def boundaryOk : List Char → Bool
  | [] => true
  | c :: _ => !isWordCh c

/-- Attempt `PARAM_PATTERN` at the head of `l`; on success return the
captured value and the remaining characters after the match. -/
def matchParamAt (l : List Char) : Option (ℚ × List Char) :=
  let d1 := l.takeWhile isDigitCh
  let r1 := l.dropWhile isDigitCh
  if d1.isEmpty then none
  else
    -- `\s*[bB](?:\b|$)` after the captured number
    let tryTail (v : ℚ) (r : List Char) : Option (ℚ × List Char) :=
      match r.dropWhile isSpaceCh with
      | [] => none
      | c :: rest => if (c = 'b' ∨ c = 'B') ∧ boundaryOk rest then some (v, rest) else none
    match r1 with
    | '.' :: r2 =>
        let d2 := r2.takeWhile isDigitCh
        let r3 := r2.dropWhile isDigitCh
        if d2.isEmpty then tryTail (digitsVal d1 : ℚ) r1
        else
          match tryTail (decimalVal d1 d2) r3 with
          | some res => some res
          | none => tryTail (digitsVal d1 : ℚ) r1
    | _ => tryTail (digitsVal d1 : ℚ) r1

/-- `PARAM_PATTERN.findall` scan (fuelled by the input length; every match
consumes at least one character). -/
def paramScan : Nat → List Char → List ℚ
  | 0, _ => []
  | _, [] => []
  | fuel + 1, l@(_ :: rest) =>
      match matchParamAt l with
      | some (v, r) => v :: paramScan fuel r
      | none => paramScan fuel rest

/-- `PARAM_PATTERN.findall(model_id)` as captured float values. -/
def paramFindall (s : String) : List ℚ :=
  paramScan s.toList.length s.toList

/-- Attempt the `(\d+(?:\.\d+)?)[bB]` part of `MOE_ACTIVE_PATTERN` at the
head of `l` (the leading `[Aa]` has already been consumed). -/
def matchMoeNumAt (l : List Char) : Option ℚ :=
  let d1 := l.takeWhile isDigitCh
  let r1 := l.dropWhile isDigitCh
  if d1.isEmpty then none
  else
    let tryB (v : ℚ) (r : List Char) : Option ℚ :=
      match r with
      | c :: _ => if c = 'b' ∨ c = 'B' then some v else none
      | [] => none
    match r1 with
    | '.' :: r2 =>
        let d2 := r2.takeWhile isDigitCh
        let r3 := r2.dropWhile isDigitCh
        if d2.isEmpty then tryB (digitsVal d1 : ℚ) r1
        else
          match tryB (decimalVal d1 d2) r3 with
          | some res => some res
          | none => tryB (digitsVal d1 : ℚ) r1
    | _ => tryB (digitsVal d1 : ℚ) r1

/-- `MOE_ACTIVE_PATTERN.search` scan: first match wins. -/
def moeScan : Nat → List Char → Option ℚ
  | 0, _ => none
  | _, [] => none
  | fuel + 1, c :: rest =>
      if c = 'A' ∨ c = 'a' then
        match matchMoeNumAt rest with
        | some v => some v
        | none => moeScan fuel rest
      else moeScan fuel rest

/-- `MOE_ACTIVE_PATTERN.search(model_id)`, captured value. -/
def moeSearch (s : String) : Option ℚ :=
  moeScan s.toList.length s.toList

/-- Python `max` of a list of floats; `none` on `[]` (`ValueError`). -/
def maxQStep (best v : ℚ) : ℚ := if best < v then v else best

def pyMaxQ : List ℚ → Option ℚ
  | [] => none
  | x :: xs => some (xs.foldl maxQStep x)

/-- `_extract_params` (models.py lines 92-109).  The outer `none` models an
escaping exception: when the disambiguation branch re-computes
`max(float(p) for p in all_params if float(p) != active_params)` over an
empty sequence, Python raises `ValueError`. -/
def _extract_params (model_id : String) : Option (Option ℚ × Option ℚ) :=
  let active_params : Option ℚ := moeSearch model_id
  let all_params := paramFindall model_id
  match pyMaxQ all_params with
  | none => some (none, active_params)
  | some total =>
      if pyTruthy active_params ∧ total = active_params.getD 0 ∧ 1 < all_params.length then
        match pyMaxQ (all_params.filter (fun p => p ≠ active_params.getD 0)) with
        | none => none
        | some total2 => some (some total2, active_params)
      else some (some total, active_params)

/-! ### Model classification and configuration -/

/-- `a == b` on chars after Python `re.IGNORECASE` folding (ASCII). -/
def lowerList (l : List Char) : List Char := l.map Char.toLower

/-- Whether `n` is a prefix of `h` (plain character comparison). -/
def hasPre : List Char → List Char → Bool
  | [], _ => true
  | _ :: _, [] => false
  | a :: as, b :: bs => a = b && hasPre as bs

/-- Whether `n` occurs as a contiguous run inside `h`. -/
def hasSub (n : List Char) : List Char → Bool
  | [] => n.isEmpty
  | h@(_ :: t) => hasPre n h || hasSub n t

/-- `re.search` of an alternation of plain literals, case-insensitively:
true iff some literal occurs in the string. -/
def searchLiterals (lits : List String) (s : String) : Bool :=
  lits.any (fun lit => hasSub (lowerList lit.toList) (lowerList s.toList))

/-- `_is_chat_model` (models.py lines 121-126): false on
`EMBEDDING_PATTERNS = embed|embedding` or
`EXCLUDE_PATTERNS = ocr|whisper|tts|rerank` (both `IGNORECASE`). -/
def _is_chat_model (model_id : String) : Bool :=
  if searchLiterals ["embed", "embedding"] model_id then false
  else if searchLiterals ["ocr", "whisper", "tts", "rerank"] model_id then false
  else true

/-- `re.search(r"coder|code", model_id, re.IGNORECASE)` truthiness
(models.py line 141). -/
def isCoderId (model_id : String) : Bool :=
  searchLiterals ["coder", "code"] model_id

/-- `RouterConfig` (config.py lines 15-55), restricted to the fields the
routing core reads; defaults are the constructor's defaults. -/
structure RouterConfig where
  tier1_max_params : ℚ := 8
  tier2_max_params : ℚ := 27
  heuristic_low_threshold : ℚ := 3 / 10
  heuristic_high_threshold : ℚ := 7 / 10
  classifier_model : String := ""
  model_cache_ttl : ℚ := 300
  filter_mode : String := "blocklist"
  allowed_models : List String := []
  excluded_models : List String := []
  tier_overrides : List (String × String) := []
deriving Repr

/-- The default (non-overridden) configuration. -/
def defaultConfig : RouterConfig := {}

/-- `RouterConfig.is_model_enabled` (config.py lines 48-52). -/
def RouterConfig.is_model_enabled (cfg : RouterConfig) (model_id : String) : Bool :=
  if cfg.filter_mode = "allowlist" then cfg.allowed_models.contains model_id
  else !(cfg.excluded_models.contains model_id)

/-- `RouterConfig.get_tier_override` (config.py lines 54-55). -/
def RouterConfig.get_tier_override (cfg : RouterConfig) (model_id : String) : Option String :=
  (cfg.tier_overrides.find? (fun p => p.1 = model_id)).map Prod.snd

/-- `_classify_tier` (models.py lines 112-118). -/
def _classify_tier (cfg : RouterConfig) (effective_params : ℚ) : Tier :=
  if effective_params ≤ cfg.tier1_max_params then .SMALL
  else if effective_params ≤ cfg.tier2_max_params then .MEDIUM
  else .LARGE

/-- `_build_model_info` (models.py lines 129-149).  Outer `none` = an
exception escaping from `_extract_params`; `some none` = "not a chat
model". -/
def _build_model_info (cfg : RouterConfig) (model_id : String) :
    Option (Option ModelInfo) :=
  if !_is_chat_model model_id then some none
  else
    match _extract_params model_id with
    | none => none
    | some (total_params, active_params) =>
        let effective := pyOrOpt total_params active_params
        let tier :=
          match effective with
          | some e => _classify_tier cfg e
          | none => Tier.MEDIUM
        some (some
          { id := model_id
            total_params := total_params
            active_params := active_params
            tier := tier
            is_coder := isCoderId model_id })

/-! ### Registry refresh (`refresh_models`, models.py lines 152-219) -/

/-- `Tier[name]` lookup by enum member name; `none` = `KeyError`. -/
def tierOfName : String → Option Tier
  | "SMALL" => some .SMALL
  | "MEDIUM" => some .MEDIUM
  | "LARGE" => some .LARGE
  | _ => none

/-- Python dict assignment `d[k] = v` on an association list: replace the
value in place if the key exists, else append. -/
def dictInsert (k : String) (v : ModelInfo) :
    List (String × ModelInfo) → List (String × ModelInfo)
  | [] => [(k, v)]
  | (k', v') :: rest =>
      if k' = k then (k, v) :: rest else (k', v') :: dictInsert k v rest

/-- The per-entry body of the refresh loop (models.py lines 173-201):
build the info, apply the config filter, apply a tier override (an invalid
override name is a caught `KeyError` and leaves the tier untouched).
`none` = an exception escaping from the loop body. -/
def refreshStep (cfg : RouterConfig) (acc : List (String × ModelInfo))
    (model_id : String) : Option (List (String × ModelInfo)) :=
  match _build_model_info cfg model_id with
  | none => none
  | some none => some acc
  | some (some info) =>
      if !cfg.is_model_enabled model_id then some acc
      else
        let info :=
          match cfg.get_tier_override model_id with
          | some ovr =>
              match tierOfName ovr with
              | some t => { info with tier := t }
              | none => info
          | none => info
        some (dictInsert model_id info acc)

/-- The refresh loop over the fetched ids, threading `new_models` from the
left; `none` = an exception escaping from the loop. -/
def buildModelsAux (cfg : RouterConfig) :
    List (String × ModelInfo) → List String → Option (List (String × ModelInfo))
  | acc, [] => some acc
  | acc, id :: rest =>
      match refreshStep cfg acc id with
      | none => none
      | some acc' => buildModelsAux cfg acc' rest

/-- `new_models` built from the fetched model ids (models.py lines
171-201), starting from the empty dict. -/
def buildModels (cfg : RouterConfig) (ids : List String) :
    Option (List (String × ModelInfo)) :=
  buildModelsAux cfg [] ids

/-- Outcome of the `/models` fetch plus config reload inside the `try`
block (models.py lines 160-169): `err` is any exception (network error,
bad status, malformed JSON, missing `id` key); `ok` carries the listed
model ids in response order and the freshly loaded configuration
(`load_config` itself never raises: it catches internally). -/
inductive FetchOutcome where
  | err
  | ok (ids : List String) (cfg : RouterConfig)

/-- A registry built wholesale from a successful fetch (models.py line
206): a function of the fetched data, the loaded configuration and the
current time only — the previous snapshot does not occur. -/
def freshRegistry (cfg : RouterConfig) (ids : List String) (now : ℚ) :
    Option ModelRegistry :=
  (buildModels cfg ids).map (fun ms => { models := ms, last_refresh := now })

/-- `refresh_models` (models.py lines 152-219) as a state transition on the
module-global `_registry`.  Inputs: the previous registry, the `force`
flag, the current time, the TTL from the *current* config (read before the
`try`), and the oracle outcome of the fetch inside the `try` block.
Returns the new value of `_registry` paired with the function's result
(`none` = the exception is re-raised to the caller). -/
def refresh_models (prev : ModelRegistry) (force : Bool) (now : ℚ) (ttl : ℚ)
    (outcome : FetchOutcome) : ModelRegistry × Option ModelRegistry :=
  if !force ∧ now - prev.last_refresh < ttl then (prev, some prev)
  else
    let failPath : ModelRegistry × Option ModelRegistry :=
      if prev.models.isEmpty then (prev, none) else (prev, some prev)
    match outcome with
    | .err => failPath
    | .ok ids cfg =>
        match freshRegistry cfg ids now with
        | none => failPath
        | some r => (r, some r)

/-! ### Messages (the chat-completion payload shapes the core inspects) -/

/-- One element of a structured content list.  `text s` is a dict with
`type == "text"` whose `text` field (defaulted to `""`) is `s`;
`image_url` a dict with `type == "image_url"`; `other` any other element
(non-dict, or a dict with a different `type`). -/
inductive PyBlock where
  | text (s : String)
  | image_url
  | other
deriving DecidableEq, Repr

/-- A message's `content` value: a plain string, a structured list, or any
other Python value (whose `str()` rendering is carried for f-string use;
a missing `content` key is `str ""` via `msg.get("content", "")`). -/
inductive PyContent where
  | str (s : String)
  | blocks (l : List PyBlock)
  | other (rendered : String)
deriving DecidableEq, Repr

/-- A message dict: `role` is `msg.get("role")` (`none` when absent). -/
structure Message where
  role : Option String := none
  content : PyContent := .str ""
deriving DecidableEq, Repr

/-- Text pieces contributed by one block in `_extract_text`
(heuristics.py lines 84-90). -/
def blockText : PyBlock → List String
  | .text s => [s]
  | .image_url => ["[IMAGE]"]
  | .other => []

/-- Text pieces contributed by one `content` value in `_extract_text`. -/
def contentText : PyContent → List String
  | .str s => [s]
  | .blocks l => (l.map blockText).flatten
  | .other _ => []

/-- `_extract_text` (heuristics.py lines 77-91). -/
def _extract_text (messages : List Message) : String :=
  String.intercalate "\n" ((messages.map (fun m => contentText m.content)).flatten)

/-- `_estimate_tokens` (heuristics.py lines 72-74): `len(text) // 4`. -/
def _estimate_tokens (text : String) : Nat :=
  text.length / 4

/-- The three-backtick fence delimiter of `CODE_BLOCK_PATTERN`. -/
def fenceChars : List Char := [Char.ofNat 96, Char.ofNat 96, Char.ofNat 96]

/-- Left-to-right count of non-overlapping fence occurrences (fuelled by
the input length). -/
def countFences : Nat → List Char → Nat
  | 0, _ => 0
  | _, [] => 0
  | fuel + 1, l@(_ :: t) =>
      if hasPre fenceChars l then 1 + countFences fuel (l.drop 3)
      else countFences fuel t

/-- `len(CODE_BLOCK_PATTERN.findall(text))` for the lazy pattern
`<fence>[\s\S]*?<fence>`: each match consumes the next two fence
occurrences of the left-to-right non-overlapping scan, so the match count
is half the fence count, rounded down. -/
def countCodeBlocks (s : String) : Nat :=
  countFences s.toList.length s.toList / 2

/-- Python `needle in haystack` on strings (case-sensitive). -/
def strContains (needle s : String) : Bool :=
  hasSub needle.toList s.toList

/-! ### Classifier escalation (`classifier.py`) -/

/-- Python `min(lst, key=lambda m: m.effective_params)`: `none` on `[]`,
otherwise the first element attaining the minimal key. -/
def minStep (best m : ModelInfo) : ModelInfo :=
  if m.effective_params < best.effective_params then m else best

def pyMinByEff : List ModelInfo → Option ModelInfo
  | [] => none
  | x :: xs => some (xs.foldl minStep x)

/-- The classifier-model choice of `classify_complexity` (classifier.py
lines 38-54): the configured model if the config string is truthy
(non-empty), else the smallest SMALL-tier model, else the smallest model
overall, else `none` (no models at all). -/
def pickClassifierModel (cfg : RouterConfig) (registry : ModelRegistry) : Option String :=
  if cfg.classifier_model ≠ "" then some cfg.classifier_model
  else
    match pyMinByEff (registry.by_tier .SMALL) with
    | some m => some m.id
    | none => (pyMinByEff (registry.models.map Prod.snd)).map (fun m => m.id)

/-- Text pieces contributed by one block in `_condense_messages`
(classifier.py lines 105-111). -/
def condBlockText : PyBlock → List String
  | .text s => [s]
  | .image_url => ["[image]"]
  | .other => []

/-- The string a message's `content` renders to in `_condense_messages`:
a list joins its text pieces with spaces; any other value is rendered by
the f-string. -/
def condContent : PyContent → String
  | .str s => s
  | .blocks l => String.intercalate " " ((l.map condBlockText).flatten)
  | .other rendered => rendered

/-- `_condense_messages` (classifier.py lines 98-118) with
`max_chars = 2000`: each message rendered as `"<role>: <content>"`
(role defaulting to `"unknown"`), joined by newlines; over 2000
characters, keep the first 500 and last 1500 joined by an ellipsis line. -/
def _condense_messages (messages : List Message) : String :=
  let parts := messages.map (fun msg =>
    let role := msg.role.getD "unknown"
    let content := condContent msg.content
    s!"{role}: {content}")
  let full_text := String.intercalate "\n" parts
  if full_text.length > 2000 then
    String.mk (full_text.toList.take 500) ++ "\n...\n" ++
      String.mk (full_text.toList.drop (full_text.length - 1500))
  else full_text

/-- Outcome of the whole `try` block of `classify_complexity`
(classifier.py lines 59-91): `fail` is any exception — network error,
timeout, non-2xx status, malformed JSON, missing `tier` field, a `tier`
value `int()` rejects; `ok tier_num reason` is a fully successful call and
parse, with `tier_num = int(parsed["tier"])` and
`reason = parsed.get("reason", "")`. -/
inductive ClassifierCall where
  | fail
  | ok (tier_num : ℤ) (reason : String)

/-- `Tier(max(1, min(3, tier_num)))` (classifier.py line 85). -/
def clampTier (tier_num : ℤ) : Tier :=
  let c := max 1 (min 3 tier_num)
  if c = 1 then .SMALL else if c = 2 then .MEDIUM else .LARGE

/-- `classify_complexity` (classifier.py lines 30-95).  The backend is the
oracle `call`, a function of the model id and the condensed transcript
sent to it.  Every statement outside the `try` block either cannot raise
(guarded `min`s, pure string work) or returns early, so the embedding is a
total function into `Tier × String`. -/
def classify_complexity (cfg : RouterConfig) (registry : ModelRegistry)
    (messages : List Message) (call : String → String → ClassifierCall) :
    Tier × String :=
  match pickClassifierModel cfg registry with
  | none => (.MEDIUM, "no classifier model available")
  | some classifier_model =>
      let condensed := _condense_messages messages
      match call classifier_model condensed with
      | .fail => (.MEDIUM, "classifier error, defaulting to medium")
      | .ok tier_num reason => (clampTier tier_num, reason)

/-! ### Heuristic scoring (`score_request`, heuristics.py lines 94-197)

The three keyword pattern families (`COMPLEX_KEYWORDS`,
`MODERATE_KEYWORDS`, `SIMPLE_KEYWORDS`) are large bilingual alternations;
their `finditer` results on the last user message enter the score only
through the list of matched substrings.  The embedding takes these three
match lists as parameters (for every concrete request they are some
concrete lists of strings, so every theorem quantifying over them covers
the actual behaviour).  Python's `set(...)` in the reason strings has
unspecified iteration order; it is modelled as first-occurrence
deduplication. -/

/-- `HeuristicResult` (heuristics.py lines 10-14). -/
structure HeuristicResult where
  score : ℚ
  reasons : List String
  confident : Bool
deriving DecidableEq, Repr

/-- Python `round(x, 3)`.  Every score reachable in `score_request` is a
multiple of 1/100, where rounding to three decimals is the identity, so
half-to-even versus half-up is immaterial. -/
def round3 (q : ℚ) : ℚ :=
  (round (1000 * q) : ℚ) / 1000

/-- `', '.join(set(l[:3]))` modelled with first-occurrence order. -/
def joinSet3 (l : List String) : String :=
  String.intercalate ", " (l.take 3).eraseDups

/-- The additive signal accumulation of `score_request` (heuristics.py
lines 98-181), before the clamp: the running `score` and `reasons`. -/
def scoreAccum (messages : List Message) (tools : Option (List Unit))
    (complexMatches moderateMatches simpleMatches : List String) :
    ℚ × List String :=
  let full_text := _extract_text messages
  let total_tokens := _estimate_tokens full_text
  let num_turns := messages.length
  -- Token count scoring
  let (score, reasons) : ℚ × List String :=
    if total_tokens < 50 then (0 + 0, [s!"very short ({total_tokens} est. tokens)"])
    else if total_tokens < 200 then ((0.1 : ℚ), [])
    else if total_tokens < 800 then ((0.25 : ℚ), [s!"medium length ({total_tokens} est. tokens)"])
    else if total_tokens < 2000 then ((0.4 : ℚ), [s!"long ({total_tokens} est. tokens)"])
    else ((0.5 : ℚ), [s!"very long ({total_tokens} est. tokens)"])
  -- Conversation depth
  let (score, reasons) :=
    if num_turns > 10 then
      (score + (0.15 : ℚ), reasons ++ [s!"deep conversation ({num_turns} turns)"])
    else if num_turns > 4 then
      (score + (0.08 : ℚ), reasons ++ [s!"multi-turn ({num_turns} turns)"])
    else (score, reasons)
  -- Tool/function calling (`if tools:` — present and non-empty)
  let (score, reasons) :=
    match tools with
    | some ts =>
        if ts.isEmpty then (score, reasons)
        else
          let tool_count := ts.length
          if tool_count > 3 then
            (score + (0.2 : ℚ), reasons ++ [s!"many tools ({tool_count})"])
          else (score + (0.1 : ℚ), reasons ++ [s!"tool use ({tool_count} tools)"])
    | none => (score, reasons)
  -- System prompt complexity
  let system_msgs := messages.filter (fun m => m.role = some "system")
  let (score, reasons) :=
    if system_msgs.isEmpty then (score, reasons)
    else
      let system_tokens := _estimate_tokens (_extract_text system_msgs)
      if system_tokens > 500 then
        (score + (0.15 : ℚ), reasons ++ [s!"complex system prompt ({system_tokens} est. tokens)"])
      else if system_tokens > 100 then (score + (0.05 : ℚ), reasons)
      else (score, reasons)
  -- Code blocks
  let code_blocks := countCodeBlocks full_text
  let (score, reasons) :=
    if code_blocks > 2 then
      (score + (0.15 : ℚ), reasons ++ [s!"multiple code blocks ({code_blocks})"])
    else if code_blocks > 0 then (score + (0.05 : ℚ), reasons)
    else (score, reasons)
  -- Images
  let (score, reasons) :=
    if strContains "[IMAGE]" full_text then
      (score + (0.1 : ℚ), reasons ++ ["contains images"])
    else (score, reasons)
  -- Keyword analysis (last user message)
  let (score, reasons) :=
    if complexMatches.isEmpty then (score, reasons)
    else
      let n := complexMatches.length
      let keyword_score := min (0.7 : ℚ) ((0.2 : ℚ) + (0.15 : ℚ) * n)
      let joined := joinSet3 complexMatches
      (score + keyword_score, reasons ++ [s!"complex keywords ({n}): {joined}"])
  let (score, reasons) :=
    if moderateMatches.isEmpty then (score, reasons)
    else
      let n := moderateMatches.length
      let keyword_score := min (0.2 : ℚ) ((0.1 : ℚ) * n)
      let joined := joinSet3 moderateMatches
      (score + keyword_score, reasons ++ [s!"moderate keywords ({n}): {joined}"])
  let (score, reasons) :=
    if !simpleMatches.isEmpty ∧ complexMatches.isEmpty ∧ moderateMatches.isEmpty then
      let joined := joinSet3 simpleMatches
      (score - (0.15 : ℚ), reasons ++ [s!"simple keywords: {joined}"])
    else (score, reasons)
  (score, reasons)

/-- `score_request` (heuristics.py lines 94-197): the accumulated score
clamped to `[0, 1]`, the confidence flag computed from the clamped score
against the configured thresholds with a fixed margin of 0.1, and the
score rounded to three decimals in the returned record.  `tools` is the
optional tool list (entries opaque — only truthiness and length are
read); `complexMatches`, `moderateMatches`, `simpleMatches` are the
matched substrings of the three keyword regexes on the extracted text of
the last user message. -/
def score_request (cfg : RouterConfig) (messages : List Message)
    (tools : Option (List Unit))
    (complexMatches moderateMatches simpleMatches : List String) :
    HeuristicResult :=
  let (score, reasons) :=
    scoreAccum messages tools complexMatches moderateMatches simpleMatches
  -- Clamp
  let score := max 0 (min 1 score)
  -- Confidence: clearly inside one tier's range, with margin from boundaries
  let low_thresh := cfg.heuristic_low_threshold
  let high_thresh := cfg.heuristic_high_threshold
  let margin : ℚ := 0.1
  let confident :=
    decide (score < low_thresh - margin) ||
    (decide (low_thresh + margin ≤ score) && decide (score ≤ high_thresh - margin)) ||
    decide (score > high_thresh + margin)
  { score := round3 score, reasons := reasons, confident := confident }

/-! ### Routing orchestrator (`router.py`) -/

/-- `_score_to_tier` (router.py lines 13-19). -/
def _score_to_tier (cfg : RouterConfig) (score : ℚ) : Tier :=
  if score ≤ cfg.heuristic_low_threshold then .SMALL
  else if score ≥ cfg.heuristic_high_threshold then .LARGE
  else .MEDIUM

/-- Enum member name, `tier.name`. -/
def Tier.name : Tier → String
  | .SMALL => "SMALL"
  | .MEDIUM => "MEDIUM"
  | .LARGE => "LARGE"

/-- A value of the metadata dict returned by `route_request`. -/
inductive MetaVal where
  | s (v : String)
  | q (v : ℚ)
  | sl (v : List String)
  | b (v : Bool)
deriving DecidableEq, Repr

/-- The metadata dict, in insertion order. -/
abbrev Metadata := List (String × MetaVal)

/-- Dict key lookup on the metadata. -/
def metaGet (md : Metadata) (k : String) : Option MetaVal :=
  (md.find? (fun p => p.1 = k)).map Prod.snd

/-- `requested_model in registry.models` (dict key membership). -/
def ModelRegistry.lookup (r : ModelRegistry) (k : String) : Option ModelInfo :=
  (r.models.find? (fun p => p.1 = k)).map Prod.snd

/-- `route_request` (router.py lines 22-79), after the registry refresh.
The sub-computations that leave the pure routing core are supplied as
inputs: `registry` is the refreshed snapshot, `heuristic` the
`score_request` result, `classifierOut` the `classify_complexity` result
(consulted only when the heuristic is not confident), and `prefer_coder`
the `_is_coding_request(messages)` result.  `none` models the
`RuntimeError("No models available for routing")`. -/
def routeScored (cfg : RouterConfig) (registry : ModelRegistry)
    (heuristic : HeuristicResult) (classifierOut : Tier × String)
    (prefer_coder : Bool) : Option (ModelInfo × Metadata) :=
  let (tier, routing_method, classifier_reason) :=
    if heuristic.confident then
      (_score_to_tier cfg heuristic.score, "heuristic", "")
    else (classifierOut.1, "classifier", classifierOut.2)
  match registry.get_model_for_tier tier prefer_coder with
  | none => none
  | some model =>
      let metadata : Metadata :=
        [("routing", .s routing_method),
         ("heuristic_score", .q heuristic.score),
         ("heuristic_reasons", .sl heuristic.reasons),
         ("tier", .s tier.name),
         ("selected_model", .s model.id),
         ("prefer_coder", .b prefer_coder)]
      let metadata :=
        if classifier_reason ≠ "" then
          metadata ++ [("classifier_reason", .s classifier_reason)]
        else metadata
      some (model, metadata)

def route_request (cfg : RouterConfig) (registry : ModelRegistry)
    (requested_model : Option String) (heuristic : HeuristicResult)
    (classifierOut : Tier × String) (prefer_coder : Bool) :
    Option (ModelInfo × Metadata) :=
  let explicitHit :=
    match requested_model with
    | some rm => if rm ≠ "" then registry.lookup rm else none
    | none => none
  match requested_model, explicitHit with
  | some rm, some model =>
      some (model, [("routing", .s "explicit"), ("requested_model", .s rm)])
  | _, _ => routeScored cfg registry heuristic classifierOut prefer_coder

/-! ### Read-only registry queries as state transformers (claim C10)

`by_tier` and `get_model_for_tier` are methods on the registry; their
bodies build fresh lists from `self.models.values()` and contain no
assignment to `self` or to any `ModelInfo` field, so the state they leave
behind is the receiver itself.  The state-passing wrappers make that frame
explicit. -/

/-- `by_tier` as a state transformer: resulting registry state paired with
the returned list. -/
def by_tier_st (r : ModelRegistry) (tier : Tier) :
    ModelRegistry × List ModelInfo :=
  (r, r.by_tier tier)

/-- `get_model_for_tier` as a state transformer: resulting registry state
paired with the returned model. -/
def get_model_for_tier_st (r : ModelRegistry) (tier : Tier)
    (prefer_coder : Bool) : ModelRegistry × Option ModelInfo :=
  (r, r.get_model_for_tier tier prefer_coder)

/-! ## Helper lemmas -/

/-- The fold underlying Python `max(·, key=effective_params)`: its result
is the seed or a list element, dominates the seed, and dominates every
list element. -/
lemma foldl_maxStep_spec (xs : List ModelInfo) (b : ModelInfo) :
    (xs.foldl maxStep b = b ∨ xs.foldl maxStep b ∈ xs) ∧
    b.effective_params ≤ (xs.foldl maxStep b).effective_params ∧
    ∀ x ∈ xs, x.effective_params ≤ (xs.foldl maxStep b).effective_params := by
  induction xs generalizing b with
  | nil => simp
  | cons m xs ih =>
      obtain ⟨hmem, hb, hall⟩ := ih (maxStep b m)
      have hb1 : b.effective_params ≤ (maxStep b m).effective_params := by
        unfold maxStep; split
        · exact le_of_lt (by assumption)
        · exact le_refl _
      have hm1 : m.effective_params ≤ (maxStep b m).effective_params := by
        unfold maxStep; split
        · exact le_refl _
        · exact le_of_not_lt (by assumption)
      refine ⟨?_, le_trans hb1 hb, ?_⟩
      · rcases hmem with h | h
        · rw [List.foldl_cons, h]
          unfold maxStep; split
          · exact Or.inr (List.mem_cons_self _ _)
          · exact Or.inl rfl
        · exact Or.inr (List.mem_cons_of_mem _ h)
      · intro x hx
        rcases List.mem_cons.mp hx with rfl | hx
        · exact le_trans hm1 hb
        · exact hall x hx

/-- `pyMaxByEff` on a non-empty list returns a member that dominates every
member. -/
lemma pyMaxByEff_spec (l : List ModelInfo) (h : ¬l.isEmpty) :
    ∃ m, pyMaxByEff l = some m ∧ m ∈ l ∧
      ∀ x ∈ l, x.effective_params ≤ m.effective_params := by
  cases l with
  | nil => simp at h
  | cons x xs =>
      obtain ⟨hmem, hb, hall⟩ := foldl_maxStep_spec xs x
      refine ⟨xs.foldl maxStep x, rfl, ?_, ?_⟩
      · rcases hmem with h' | h'
        · rw [h']; exact List.mem_cons_self _ _
        · exact List.mem_cons_of_mem _ h'
      · intro y hy
        rcases List.mem_cons.mp hy with rfl | hy
        · exact hb
        · exact hall y hy

/-- The fold underlying Python `max` on floats. -/
lemma foldl_maxQStep_spec (xs : List ℚ) (b : ℚ) :
    (xs.foldl maxQStep b = b ∨ xs.foldl maxQStep b ∈ xs) ∧
    b ≤ xs.foldl maxQStep b ∧
    ∀ x ∈ xs, x ≤ xs.foldl maxQStep b := by
  induction xs generalizing b with
  | nil => simp
  | cons m xs ih =>
      obtain ⟨hmem, hb, hall⟩ := ih (maxQStep b m)
      have hb1 : b ≤ maxQStep b m := by
        unfold maxQStep; split
        · exact le_of_lt (by assumption)
        · exact le_refl _
      have hm1 : m ≤ maxQStep b m := by
        unfold maxQStep; split
        · exact le_refl _
        · exact le_of_not_lt (by assumption)
      refine ⟨?_, le_trans hb1 hb, ?_⟩
      · rcases hmem with h | h
        · rw [List.foldl_cons, h]
          unfold maxQStep; split
          · exact Or.inr (List.mem_cons_self _ _)
          · exact Or.inl rfl
        · exact Or.inr (List.mem_cons_of_mem _ h)
      · intro x hx
        rcases List.mem_cons.mp hx with rfl | hx
        · exact le_trans hm1 hb
        · exact hall x hx

/-- `pyMaxQ` on a non-empty list returns a member that dominates every
member. -/
lemma pyMaxQ_spec (l : List ℚ) (h : l ≠ []) :
    ∃ v, pyMaxQ l = some v ∧ v ∈ l ∧ ∀ x ∈ l, x ≤ v := by
  cases l with
  | nil => simp at h
  | cons x xs =>
      obtain ⟨hmem, hb, hall⟩ := foldl_maxQStep_spec xs x
      refine ⟨xs.foldl maxQStep x, rfl, ?_, ?_⟩
      · rcases hmem with h' | h'
        · rw [h']; exact List.mem_cons_self _ _
        · exact List.mem_cons_of_mem _ h'
      · intro y hy
        rcases List.mem_cons.mp hy with rfl | hy
        · exact hb
        · exact hall y hy

/-- `round3` keeps the unit interval. -/
lemma round3_mem_unit (q : ℚ) (h0 : 0 ≤ q) (h1 : q ≤ 1) :
    0 ≤ round3 q ∧ round3 q ≤ 1 := by
  unfold round3
  rw [round_eq]
  have hf0 : (0 : ℤ) ≤ ⌊1000 * q + 1 / 2⌋ := Int.le_floor.mpr (by push_cast; linarith)
  have hf1 : ⌊1000 * q + 1 / 2⌋ ≤ 1000 := by
    have hlt : (1000 : ℚ) * q + 1 / 2 < ((1001 : ℤ) : ℚ) := by push_cast; linarith
    have h := Int.floor_lt.mpr hlt
    omega
  constructor
  · apply div_nonneg _ (by norm_num)
    exact_mod_cast hf0
  · rw [div_le_one (by norm_num)]
    exact_mod_cast hf1

/-! ## Claims -/

/-- Claim C8: for every configuration, message list, optional tool list
and keyword-match lists, the score returned by `score_request` lies in
`[0, 1]`: the accumulated signal sum is clamped to `[0, 1]` and then
rounded to three decimals, so the result never falls below `0` or exceeds
`1`. -/
theorem C8_score_in_unit_interval (cfg : RouterConfig) (messages : List Message)
    (tools : Option (List Unit)) (cm mm sm : List String) :
    0 ≤ (score_request cfg messages tools cm mm sm).score ∧
    (score_request cfg messages tools cm mm sm).score ≤ 1 := by
  unfold score_request
  obtain ⟨s, rs⟩ := scoreAccum messages tools cm mm sm
  have h0 : (0 : ℚ) ≤ max 0 (min 1 s) := le_max_left 0 _
  have h1 : max 0 (min 1 s) ≤ 1 := max_le (by norm_num) (min_le_left 1 s)
  exact round3_mem_unit _ h0 h1

/-- The value `effective_params` would have under the claim C6 reading:
`total_params` if present (including the value 0), else `active_params`
if present, else 0.  Modelled from the claim's words for comparison with
the source's `ModelInfo.effective_params`. -/
def effectiveParamsClaimC6 (m : ModelInfo) : ℚ :=
  match m.total_params with
  | some t => t
  | none =>
      match m.active_params with
      | some a => a
      | none => 0

/-- Claim C6 counterexample: on a `ModelInfo` whose `total_params` is
present with value 0 and whose `active_params` is 5, the source's
`effective_params` is 5 — Python's `or` treats the 0.0 total as falsy —
while the claim says it should equal the present total, 0. -/
theorem C6_counterexample :
    (ModelInfo.effective_params
      { id := "m0", total_params := some 0, active_params := some 5 } = 5) ∧
    (effectiveParamsClaimC6
      { id := "m0", total_params := some 0, active_params := some 5 } = 0) ∧
    ModelInfo.effective_params
      { id := "m0", total_params := some 0, active_params := some 5 } ≠
      effectiveParamsClaimC6
      { id := "m0", total_params := some 0, active_params := some 5 } := by
  refine ⟨rfl, rfl, by norm_num [ModelInfo.effective_params, effectiveParamsClaimC6,
    pyOrOpt, pyTruthy]⟩

/-- Claim C6, amended: `effective_params` equals `total_params` when
present and non-zero; when the total is absent or zero it equals
`active_params` when present (a zero active value and an absent one both
yield 0, which is the active value in the former case); else 0. -/
theorem C6_effective_params_amended (m : ModelInfo) :
    m.effective_params =
      match m.total_params, m.active_params with
      | some t, some a => if t = 0 then a else t
      | some t, none => if t = 0 then 0 else t
      | none, some a => a
      | none, none => 0 := by
  unfold ModelInfo.effective_params pyOrOpt pyTruthy
  rcases m.total_params with _ | t <;> rcases m.active_params with _ | a <;>
    simp only [] <;> split_ifs <;> simp_all

/-- Claim C10: `by_tier` and `get_model_for_tier` are read-only: the
registry state they leave behind is the receiver unchanged — same model
keys, same `ModelInfo` fields, same timestamp. -/
theorem C10_queries_read_only (r : ModelRegistry) (tier : Tier) (pc : Bool) :
    (by_tier_st r tier).1 = r ∧
    (get_model_for_tier_st r tier pc).1 = r ∧
    (get_model_for_tier_st r tier pc).1.models = r.models ∧
    (by_tier_st r tier).1.models.map Prod.fst = r.models.map Prod.fst := by
  exact ⟨rfl, rfl, rfl, rfl⟩

/-- `pyMaxQ` is `none` exactly on the empty list. -/
lemma pyMaxQ_eq_none_iff (l : List ℚ) : pyMaxQ l = none ↔ l = [] := by
  cases l <;> simp [pyMaxQ]

/-- Claim C5 counterexample: on the model id `"A3B-3B"` both
total-candidates (3 and 3) equal the extracted active value 3, so the
disambiguation re-selection runs `max()` over an empty sequence and
`_extract_params` raises `ValueError` instead of returning a pair. -/
theorem C5_counterexample : _extract_params "A3B-3B" = none := by rfl

/-- Claim C5, amended: `_extract_params` returns a
`(total | null, active | null)` pair except in one case — when a truthy
active value is extracted, the selected total equals it, more than one
total-candidate exists, and every candidate equals the active value, the
re-selection maximises an empty sequence and the function raises.  The
second component of a returned pair is always the extracted active value,
and in the disambiguation case with a surviving candidate the returned
total is the largest candidate excluding the active value. -/
theorem C5_extract_params_amended (s : String) :
    (_extract_params s = none ↔
      (pyTruthy (moeSearch s) = true ∧
       pyMaxQ (paramFindall s) = some ((moeSearch s).getD 0) ∧
       1 < (paramFindall s).length ∧
       (paramFindall s).filter (fun p => p ≠ (moeSearch s).getD 0) = [])) ∧
    (∀ p, _extract_params s = some p → p.2 = moeSearch s) ∧
    (pyTruthy (moeSearch s) = true →
     pyMaxQ (paramFindall s) = some ((moeSearch s).getD 0) →
     1 < (paramFindall s).length →
     (paramFindall s).filter (fun p => p ≠ (moeSearch s).getD 0) ≠ [] →
     ∃ t, _extract_params s = some (some t, moeSearch s) ∧
       t ∈ (paramFindall s).filter (fun p => p ≠ (moeSearch s).getD 0) ∧
       ∀ x ∈ (paramFindall s).filter (fun p => p ≠ (moeSearch s).getD 0),
         x ≤ t) := by
  unfold _extract_params
  dsimp only
  cases hmax : pyMaxQ (paramFindall s) with
  | none =>
      refine ⟨by simp, ?_, ?_⟩
      · intro p hp
        cases hp
        rfl
      · intro _ h2 _ _
        cases h2
  | some total =>
      dsimp only
      split_ifs with hcond
      · obtain ⟨ht, heq, hlen⟩ := hcond
        cases hf : pyMaxQ ((paramFindall s).filter (fun p => p ≠ (moeSearch s).getD 0)) with
        | none =>
            have hnil := (pyMaxQ_eq_none_iff _).mp hf
            refine ⟨?_, ?_, ?_⟩
            · constructor
              · intro _
                exact ⟨ht, by rw [heq], hlen, hnil⟩
              · intro _; rfl
            · intro p hp
              cases hp
            · intro _ _ _ hne
              exact absurd hnil hne
        | some t2 =>
            have hne : (paramFindall s).filter (fun p => p ≠ (moeSearch s).getD 0) ≠ [] := by
              intro h
              rw [(pyMaxQ_eq_none_iff _).mpr h] at hf
              cases hf
            obtain ⟨v, hv, hvmem, hvall⟩ := pyMaxQ_spec _ hne
            obtain rfl : v = t2 := by
              rw [hv] at hf
              exact Option.some.inj hf
            refine ⟨?_, ?_, ?_⟩
            · constructor
              · intro h; cases h
              · rintro ⟨-, -, -, hnil⟩
                exact absurd hnil hne
            · intro p hp
              cases hp
              rfl
            · intro _ _ _ _
              exact ⟨v, rfl, hvmem, hvall⟩
      · refine ⟨?_, ?_, ?_⟩
        · constructor
          · intro h; cases h
          · rintro ⟨ht, heq, hlen, -⟩
            cases heq
            exact absurd ⟨ht, rfl, hlen⟩ hcond
        · intro p hp
          cases hp
          rfl
        · intro ht heq hlen _
          cases heq
          exact absurd ⟨ht, rfl, hlen⟩ hcond

/-- Witness for the amended claim C5: on `"A7B-7B-3B"` the active value 7
masquerades as the total, a distinct candidate 3 exists, and the returned
total is the largest candidate excluding the active value. -/
theorem C5_amended_witness :
    ∃ t, _extract_params "A7B-7B-3B" = some (some t, moeSearch "A7B-7B-3B") ∧
      t ∈ (paramFindall "A7B-7B-3B").filter
        (fun p => p ≠ (moeSearch "A7B-7B-3B").getD 0) ∧
      ∀ x ∈ (paramFindall "A7B-7B-3B").filter
        (fun p => p ≠ (moeSearch "A7B-7B-3B").getD 0), x ≤ t :=
  (C5_extract_params_amended "A7B-7B-3B").2.2 (by rfl) (by rfl) (by decide)
    (by decide)

/-- Field characterisation of a successfully built `ModelInfo`. -/
lemma build_model_info_fields (cfg : RouterConfig) (mid : String) (m : ModelInfo)
    (h : _build_model_info cfg mid = some (some m)) :
    ∃ tp ap, _extract_params mid = some (tp, ap) ∧
      m.total_params = tp ∧ m.active_params = ap ∧
      m.tier = (match pyOrOpt tp ap with
                | some e => _classify_tier cfg e
                | none => Tier.MEDIUM) := by
  unfold _build_model_info at h
  split at h
  · simp at h
  · cases hx : _extract_params mid with
    | none => rw [hx] at h; cases h
    | some pr =>
        obtain ⟨tp, ap⟩ := pr
        rw [hx] at h
        dsimp only at h
        obtain rfl : _ = m := Option.some.inj (Option.some.inj h)
        exact ⟨tp, ap, rfl, rfl, rfl, rfl⟩

/-- When the Python `total or active` chain inside `_build_model_info`
yields a value, `effective_params` equals that value. -/
lemma effective_params_of_pyOr (m : ModelInfo) (e : ℚ)
    (h : pyOrOpt m.total_params m.active_params = some e) :
    m.effective_params = e := by
  unfold ModelInfo.effective_params
  rw [h]
  unfold pyOrOpt pyTruthy
  by_cases he : e = 0
  · subst he; simp
  · simp [he]

/-- `_classify_tier` is monotone in its argument, for any boundaries. -/
lemma classify_tier_mono (cfg : RouterConfig) (e1 e2 : ℚ) (h : e1 ≤ e2) :
    _classify_tier cfg e1 ≤ _classify_tier cfg e2 := by
  unfold _classify_tier
  split_ifs <;> first | decide | (exfalso; linarith)

/-- Claim C7 counterexample: `_build_model_info` defaults a model with no
extractable parameter count to tier MEDIUM, so monotonicity over *all*
constructed `ModelInfo`s fails: `"mystery-model"` has
`effective_params = 0` and tier MEDIUM while `"llama-4b"` has
`effective_params = 4` and tier SMALL. -/
theorem C7_counterexample :
    _build_model_info defaultConfig "mystery-model" =
      some (some { id := "mystery-model", tier := .MEDIUM }) ∧
    _build_model_info defaultConfig "llama-4b" =
      some (some { id := "llama-4b", total_params := some 4, tier := .SMALL }) ∧
    ({ id := "mystery-model", tier := .MEDIUM } : ModelInfo).effective_params ≤
      ({ id := "llama-4b", total_params := some 4, tier := .SMALL } : ModelInfo).effective_params ∧
    ¬(({ id := "mystery-model", tier := .MEDIUM } : ModelInfo).tier ≤
      ({ id := "llama-4b", total_params := some 4, tier := .SMALL } : ModelInfo).tier) := by
  exact ⟨rfl, rfl, by norm_num [ModelInfo.effective_params, pyOrOpt, pyTruthy], by decide⟩

/-- Claim C7, amended: tier assignment at `ModelInfo` construction is
monotonic in `effective_params` *among model ids with an extractable
parameter count* (ids whose `total or active` chain yields a value; ids
with no extractable count are defaulted to MEDIUM, which breaks
unrestricted monotonicity).  The boundary instance holds: for the default
boundaries (8, 27), effective params 4 → SMALL, 27 → MEDIUM,
32 → LARGE. -/
theorem C7_tier_monotonic_amended (cfg : RouterConfig) (id1 id2 : String)
    (m1 m2 : ModelInfo)
    (h1 : _build_model_info cfg id1 = some (some m1))
    (h2 : _build_model_info cfg id2 = some (some m2))
    (hk1 : pyOrOpt m1.total_params m1.active_params ≠ none)
    (hk2 : pyOrOpt m2.total_params m2.active_params ≠ none)
    (hle : m1.effective_params ≤ m2.effective_params) :
    m1.tier ≤ m2.tier ∧
    (_classify_tier defaultConfig 4 = .SMALL ∧
     _classify_tier defaultConfig 27 = .MEDIUM ∧
     _classify_tier defaultConfig 32 = .LARGE) := by
  refine ⟨?_, by decide, by decide, by decide⟩
  obtain ⟨tp1, ap1, hx1, htp1, hap1, htier1⟩ := build_model_info_fields cfg id1 m1 h1
  obtain ⟨tp2, ap2, hx2, htp2, hap2, htier2⟩ := build_model_info_fields cfg id2 m2 h2
  rw [← htp1, ← hap1] at htier1
  rw [← htp2, ← hap2] at htier2
  cases he1 : pyOrOpt m1.total_params m1.active_params with
  | none => exact absurd he1 hk1
  | some e1 =>
      cases he2 : pyOrOpt m2.total_params m2.active_params with
      | none => exact absurd he2 hk2
      | some e2 =>
          rw [he1] at htier1
          rw [he2] at htier2
          have hv1 := effective_params_of_pyOr m1 e1 he1
          have hv2 := effective_params_of_pyOr m2 e2 he2
          rw [htier1, htier2]
          exact classify_tier_mono cfg e1 e2 (by rw [← hv1, ← hv2]; exact hle)

/-- Witness for the amended claim C7 at the concrete ids `"qwen-3-4b"`
(effective 4, SMALL) and `"gemma-3-27b"` (effective 27, MEDIUM). -/
theorem C7_amended_witness :
    ({ id := "qwen-3-4b", total_params := some 4, tier := .SMALL } : ModelInfo).tier ≤
      ({ id := "gemma-3-27b", total_params := some 27, tier := .MEDIUM } : ModelInfo).tier :=
  (C7_tier_monotonic_amended defaultConfig "qwen-3-4b" "gemma-3-27b"
    { id := "qwen-3-4b", total_params := some 4, tier := .SMALL }
    { id := "gemma-3-27b", total_params := some 27, tier := .MEDIUM }
    (by rfl) (by rfl) (by decide) (by decide) (by decide)).1

/-- Claim C3: `classify_complexity` is a total function into
`Tier × String` — no exception reaches the caller for any message list —
and every failure is converted to a MEDIUM default with an explanatory
reason: when the backend call or its parsing fails in any way the result
is `(MEDIUM, "classifier error, defaulting to medium")`, and when the
registry is empty and no classifier model is configured the model pick
fails and the result is `(MEDIUM, "no classifier model available")`
without the backend being consulted. -/
theorem C3_classifier_never_propagates (cfg : RouterConfig)
    (registry : ModelRegistry) (messages : List Message)
    (call : String → String → ClassifierCall) :
    (∃ t r, classify_complexity cfg registry messages call = (t, r)) ∧
    (pickClassifierModel cfg registry = none →
      classify_complexity cfg registry messages call =
        (.MEDIUM, "no classifier model available")) ∧
    (∀ mdl, pickClassifierModel cfg registry = some mdl →
      call mdl (_condense_messages messages) = .fail →
      classify_complexity cfg registry messages call =
        (.MEDIUM, "classifier error, defaulting to medium")) ∧
    (registry.models = [] → cfg.classifier_model = "" →
      pickClassifierModel cfg registry = none) := by
  refine ⟨⟨_, _, rfl⟩, ?_, ?_, ?_⟩
  · intro hp
    unfold classify_complexity
    rw [hp]
  · intro mdl hp hc
    unfold classify_complexity
    rw [hp]
    dsimp only
    rw [hc]
  · intro hm hc
    unfold pickClassifierModel
    rw [hc]
    simp [ModelRegistry.by_tier, hm, pyMinByEff]

/-- Witness for claim C3: on the empty registry with no configured
classifier model, and a backend oracle that always fails, the call returns
the MEDIUM default with its explanatory reason. -/
theorem C3_witness :
    classify_complexity defaultConfig {} [] (fun _ _ => .fail) =
      (.MEDIUM, "no classifier model available") :=
  (C3_classifier_never_propagates defaultConfig {} [] (fun _ _ => .fail)).2.1
    (by rfl)

/-- Claim C4: when a refresh actually proceeds (forced, or the TTL has
elapsed) and the fetch or the processing of the listing fails, a non-empty
previous snapshot is left completely unchanged and returned stale, while
an empty previous snapshot makes the error propagate (`none`); on a fully
successful refresh the resulting state is `freshRegistry cfg ids now` — a
registry built wholesale from the fetched data, the freshly loaded
configuration and the current time, with no dependence on the previous
snapshot. -/
theorem C4_refresh_error_handling (prev : ModelRegistry) (force : Bool)
    (now ttl : ℚ) (outcome : FetchOutcome)
    (hproc : force = true ∨ ¬(now - prev.last_refresh < ttl)) :
    (outcome = .err → ¬prev.models.isEmpty = true →
       refresh_models prev force now ttl outcome = (prev, some prev)) ∧
    (outcome = .err → prev.models.isEmpty = true →
       refresh_models prev force now ttl outcome = (prev, none)) ∧
    (∀ ids cfg, outcome = .ok ids cfg →
       (∀ r, freshRegistry cfg ids now = some r →
          refresh_models prev force now ttl outcome = (r, some r)) ∧
       (freshRegistry cfg ids now = none → ¬prev.models.isEmpty = true →
          refresh_models prev force now ttl outcome = (prev, some prev)) ∧
       (freshRegistry cfg ids now = none → prev.models.isEmpty = true →
          refresh_models prev force now ttl outcome = (prev, none))) := by
  have hcond : ¬((!force) = true ∧ now - prev.last_refresh < ttl) := by
    rcases hproc with h | h
    · subst h
      rintro ⟨hf, -⟩
      cases hf
    · rintro ⟨-, hl⟩
      exact h hl
  unfold refresh_models
  rw [if_neg hcond]
  refine ⟨?_, ?_, ?_⟩
  · rintro rfl hne
    dsimp only
    rw [if_neg hne]
  · rintro rfl he
    dsimp only
    rw [if_pos he]
  · rintro ids cfg rfl
    refine ⟨?_, ?_, ?_⟩
    · intro r hr
      dsimp only
      rw [hr]
    · intro hr hne
      dsimp only
      rw [hr, if_neg hne]
    · intro hr he
      dsimp only
      rw [hr, if_pos he]

/-- Witness for claim C4: a forced refresh whose fetch fails over a
non-empty previous snapshot leaves the snapshot in place and returns it. -/
theorem C4_witness :
    refresh_models { models := [("m", { id := "m" })] } true 0 300 .err =
      ({ models := [("m", { id := "m" })] },
       some { models := [("m", { id := "m" })] }) :=
  (C4_refresh_error_handling { models := [("m", { id := "m" })] } true 0 300
    .err (Or.inl rfl)).1 rfl (by decide)

/-- Claim C9 counterexample: on the explicit routing path the returned
metadata holds only the routing method and the requested model id — it
contains no heuristic score, no reasons, no resolved tier, no
selected-model key and no coder-preference flag, contradicting the claim
that every routing method records all of them. -/
theorem C9_counterexample :
    route_request defaultConfig { models := [("m1", { id := "m1" })] }
      (some "m1") { score := 0, reasons := [], confident := true }
      (.MEDIUM, "") false =
      some ({ id := "m1" },
        [("routing", .s "explicit"), ("requested_model", .s "m1")]) ∧
    metaGet [("routing", MetaVal.s "explicit"),
             ("requested_model", MetaVal.s "m1")] "heuristic_score" = none ∧
    metaGet [("routing", MetaVal.s "explicit"),
             ("requested_model", MetaVal.s "m1")] "heuristic_reasons" = none ∧
    metaGet [("routing", MetaVal.s "explicit"),
             ("requested_model", MetaVal.s "m1")] "tier" = none ∧
    metaGet [("routing", MetaVal.s "explicit"),
             ("requested_model", MetaVal.s "m1")] "selected_model" = none ∧
    metaGet [("routing", MetaVal.s "explicit"),
             ("requested_model", MetaVal.s "m1")] "prefer_coder" = none := by
  exact ⟨rfl, rfl, rfl, rfl, rfl, rfl⟩

/-- The metadata produced on the scored (non-explicit) routing paths. -/
lemma routeScored_metadata (cfg : RouterConfig) (registry : ModelRegistry)
    (heuristic : HeuristicResult) (cout : Tier × String) (pc : Bool)
    (m : ModelInfo) (md : Metadata)
    (h : routeScored cfg registry heuristic cout pc = some (m, md)) :
    metaGet md "routing" =
      some (.s (if heuristic.confident then "heuristic" else "classifier")) ∧
    metaGet md "heuristic_score" = some (.q heuristic.score) ∧
    metaGet md "heuristic_reasons" = some (.sl heuristic.reasons) ∧
    metaGet md "tier" =
      some (.s (if heuristic.confident then
        (_score_to_tier cfg heuristic.score).name else cout.1.name)) ∧
    metaGet md "selected_model" = some (.s m.id) ∧
    metaGet md "prefer_coder" = some (.b pc) ∧
    (heuristic.confident = false → cout.2 ≠ "" →
       metaGet md "classifier_reason" = some (.s cout.2)) := by
  unfold routeScored at h
  cases hconf : heuristic.confident
  · rw [hconf] at h
    simp only [if_neg (show ¬(false = true) by decide)] at h
    cases hg : registry.get_model_for_tier cout.1 pc with
    | none => rw [hg] at h; cases h
    | some model =>
        rw [hg] at h
        dsimp only at h
        split_ifs at h with hcr
        · rw [Option.some_inj, Prod.ext_iff] at h
          obtain ⟨hm, hmd⟩ := h
          subst hmd
          dsimp only at hm
          subst hm
          exact ⟨rfl, rfl, rfl, rfl, rfl, rfl, fun _ _ => rfl⟩
        · rw [Option.some_inj, Prod.ext_iff] at h
          obtain ⟨hm, hmd⟩ := h
          subst hmd
          dsimp only at hm
          subst hm
          exact ⟨rfl, rfl, rfl, rfl, rfl, rfl, fun _ hne => absurd hne hcr⟩
  · rw [hconf] at h
    simp only [eq_self_iff_true, if_true] at h
    cases hg : registry.get_model_for_tier (_score_to_tier cfg heuristic.score) pc with
    | none => rw [hg] at h; cases h
    | some model =>
        rw [hg] at h
        dsimp only at h
        rw [if_neg (show ¬(("" : String) ≠ "") from fun hx => hx rfl)] at h
        rw [Option.some_inj, Prod.ext_iff] at h
        obtain ⟨hm, hmd⟩ := h
        subst hmd
        dsimp only at hm
        subst hm
        exact ⟨rfl, rfl, rfl, rfl, rfl, rfl, fun hf _ => by cases hf⟩

/-- Claim C9, amended: on the heuristic and classifier routing paths the
metadata contains the routing method, the heuristic score, the reasons,
the resolved tier, the selected model id and the coder-preference flag
(plus the classifier's reason when escalation produced a non-empty one);
on the explicit path it contains only the routing method and the
requested model id. -/
theorem C9_metadata_amended (cfg : RouterConfig) (registry : ModelRegistry)
    (requested : Option String) (heuristic : HeuristicResult)
    (cout : Tier × String) (pc : Bool) (m : ModelInfo) (md : Metadata)
    (h : route_request cfg registry requested heuristic cout pc = some (m, md)) :
    ((∃ rm, requested = some rm ∧ rm ≠ "" ∧ (registry.lookup rm).isSome) →
       ∃ rm, requested = some rm ∧
         md = [("routing", .s "explicit"), ("requested_model", .s rm)]) ∧
    ((match requested with
      | some rm => rm = "" ∨ registry.lookup rm = none
      | none => True) →
       metaGet md "routing" =
         some (.s (if heuristic.confident then "heuristic" else "classifier")) ∧
       metaGet md "heuristic_score" = some (.q heuristic.score) ∧
       metaGet md "heuristic_reasons" = some (.sl heuristic.reasons) ∧
       metaGet md "tier" =
         some (.s (if heuristic.confident then
           (_score_to_tier cfg heuristic.score).name else cout.1.name)) ∧
       metaGet md "selected_model" = some (.s m.id) ∧
       metaGet md "prefer_coder" = some (.b pc) ∧
       (heuristic.confident = false → cout.2 ≠ "" →
          metaGet md "classifier_reason" = some (.s cout.2))) := by
  unfold route_request at h
  cases requested with
  | none =>
      dsimp only at h
      refine ⟨?_, fun _ => routeScored_metadata cfg registry heuristic cout pc m md h⟩
      rintro ⟨rm, hrm, -, -⟩
      cases hrm
  | some rm =>
      dsimp only at h
      by_cases hrm : rm = ""
      · subst hrm
        rw [if_neg (fun hx => hx rfl)] at h
        refine ⟨?_, fun _ => routeScored_metadata cfg registry heuristic cout pc m md h⟩
        rintro ⟨rm', hrm', hne, -⟩
        cases Option.some.inj hrm'
        exact absurd rfl hne
      · rw [if_pos hrm] at h
        cases hlook : registry.lookup rm with
        | none =>
            rw [hlook] at h
            refine ⟨?_,
              fun _ => routeScored_metadata cfg registry heuristic cout pc m md h⟩
            rintro ⟨rm', hrm', -, hsome⟩
            cases Option.some.inj hrm'
            rw [hlook] at hsome
            cases hsome
        | some model =>
            rw [hlook] at h
            dsimp only at h
            rw [Option.some_inj, Prod.ext_iff] at h
            obtain ⟨hm, hmd⟩ := h
            refine ⟨fun _ => ⟨rm, rfl, hmd.symm⟩, ?_⟩
            intro hcase
            rcases hcase with hc | hc
            · exact absurd hc hrm
            · rw [hlook] at hc
              cases hc

/-- Witness for the amended claim C9: a classifier-routed request records
all six metadata fields plus the classifier's reason. -/
theorem C9_amended_witness :
    metaGet [("routing", MetaVal.s "classifier"),
             ("heuristic_score", MetaVal.q 0.5),
             ("heuristic_reasons", MetaVal.sl ["r"]),
             ("tier", MetaVal.s "MEDIUM"),
             ("selected_model", MetaVal.s "big"),
             ("prefer_coder", MetaVal.b true),
             ("classifier_reason", MetaVal.s "because")] "selected_model" =
      some (MetaVal.s "big") ∧
    metaGet [("routing", MetaVal.s "classifier"),
             ("heuristic_score", MetaVal.q 0.5),
             ("heuristic_reasons", MetaVal.sl ["r"]),
             ("tier", MetaVal.s "MEDIUM"),
             ("selected_model", MetaVal.s "big"),
             ("prefer_coder", MetaVal.b true),
             ("classifier_reason", MetaVal.s "because")] "classifier_reason" =
      some (MetaVal.s "because") := by
  have h := (C9_metadata_amended defaultConfig
      { models := [("big", { id := "big", total_params := some 40, tier := .LARGE })] }
      none { score := 0.5, reasons := ["r"], confident := false }
      (.MEDIUM, "because") true
      { id := "big", total_params := some 40, tier := .LARGE }
      [("routing", .s "classifier"),
       ("heuristic_score", .q 0.5),
       ("heuristic_reasons", .sl ["r"]),
       ("tier", .s "MEDIUM"),
       ("selected_model", .s "big"),
       ("prefer_coder", .b true),
       ("classifier_reason", .s "because")] (by rfl)).2 trivial
  exact ⟨h.2.2.2.2.1, h.2.2.2.2.2.2 rfl (by decide)⟩

/-- Closed form of the candidate-selection fallback for each requested
tier. -/
lemma selectCandidates_eq (r : ModelRegistry) (t : Tier) :
    r.selectCandidates t =
      match t with
      | .SMALL =>
          if (r.by_tier .SMALL).isEmpty then
            (if (r.by_tier .MEDIUM).isEmpty then r.by_tier .LARGE
             else r.by_tier .MEDIUM)
          else r.by_tier .SMALL
      | .MEDIUM =>
          if (r.by_tier .MEDIUM).isEmpty then
            (if (r.by_tier .LARGE).isEmpty then r.by_tier .SMALL
             else r.by_tier .LARGE)
          else r.by_tier .MEDIUM
      | .LARGE =>
          if (r.by_tier .LARGE).isEmpty then
            (if (r.by_tier .MEDIUM).isEmpty then r.by_tier .SMALL
             else r.by_tier .MEDIUM)
          else r.by_tier .LARGE := by
  cases t
  · unfold ModelRegistry.selectCandidates
    rw [show tierList.filter (fun ft => Tier.SMALL < ft) = [Tier.MEDIUM, Tier.LARGE]
          from by decide,
        show tierList.reverse.filter (fun ft => ft < Tier.SMALL) = ([] : List Tier)
          from by decide]
    simp only [List.map_cons, List.map_nil, firstNonempty]
    split_ifs <;> simp_all [List.isEmpty_iff]
  · unfold ModelRegistry.selectCandidates
    rw [show tierList.filter (fun ft => Tier.MEDIUM < ft) = [Tier.LARGE]
          from by decide,
        show tierList.reverse.filter (fun ft => ft < Tier.MEDIUM) = [Tier.SMALL]
          from by decide]
    simp only [List.map_cons, List.map_nil, firstNonempty]
    split_ifs <;> simp_all [List.isEmpty_iff]
  · unfold ModelRegistry.selectCandidates
    rw [show tierList.filter (fun ft => Tier.LARGE < ft) = ([] : List Tier)
          from by decide,
        show tierList.reverse.filter (fun ft => ft < Tier.LARGE) = [Tier.MEDIUM, Tier.SMALL]
          from by decide]
    simp only [List.map_cons, List.map_nil, firstNonempty]
    split_ifs <;> simp_all [List.isEmpty_iff]

/-- If every tier's slice is empty, the registry has no models (every
`ModelInfo.tier` is one of the three tiers). -/
lemma models_empty_of_all_tiers_empty (r : ModelRegistry)
    (hS : (r.by_tier .SMALL).isEmpty) (hM : (r.by_tier .MEDIUM).isEmpty)
    (hL : (r.by_tier .LARGE).isEmpty) : r.models = [] := by
  cases hm : r.models with
  | nil => rfl
  | cons p rest =>
      exfalso
      have hmem : p.2 ∈ r.models.map Prod.snd := by
        rw [hm]
        exact List.mem_map_of_mem _ (List.mem_cons_self _ _)
      have hin : p.2 ∈ r.by_tier p.2.tier :=
        List.mem_filter.mpr ⟨hmem, by simp⟩
      rw [List.isEmpty_iff] at hS hM hL
      cases ht : p.2.tier <;> rw [ht] at hin
      · rw [hS] at hin; cases hin
      · rw [hM] at hin; cases hin
      · rw [hL] at hin; cases hin

/-- An empty registry has empty tier slices. -/
lemma by_tier_of_models_empty (r : ModelRegistry) (h : r.models = []) (t : Tier) :
    r.by_tier t = [] := by
  unfold ModelRegistry.by_tier
  rw [h]
  rfl

/-- A non-empty registry yields non-empty candidates for every requested
tier. -/
lemma selectCandidates_ne_empty (r : ModelRegistry) (t : Tier)
    (h : r.models ≠ []) : ¬(r.selectCandidates t).isEmpty := by
  intro hc
  rw [selectCandidates_eq] at hc
  apply h
  cases t <;> dsimp only at hc <;> split_ifs at hc with h1 h2 <;>
    first
      | exact absurd hc h1
      | exact absurd hc h2
      | (apply models_empty_of_all_tiers_empty r <;> assumption)

/-- Conversely, empty candidates force an empty registry. -/
lemma models_empty_of_selectCandidates_empty (r : ModelRegistry) (t : Tier)
    (hc : (r.selectCandidates t).isEmpty) : r.models = [] := by
  by_contra h
  exact selectCandidates_ne_empty r t h hc

/-- With non-empty candidates, `get_model_for_tier` always returns a
model. -/
lemma get_isSome_of_candidates (r : ModelRegistry) (t : Tier) (pc : Bool)
    (hc : ¬(r.selectCandidates t).isEmpty) :
    (r.get_model_for_tier t pc).isSome := by
  unfold ModelRegistry.get_model_for_tier
  rw [if_neg hc]
  obtain ⟨mc, hmc, -, -⟩ := pyMaxByEff_spec _ hc
  cases pc
  · dsimp only
    by_cases hg : ((r.selectCandidates t).filter (fun m => !m.is_coder)).isEmpty
    · rw [if_pos hg]
      cases ha : r.adjSearch t with
      | none => rw [hmc]; rfl
      | some m => rfl
    · rw [if_neg hg]
      obtain ⟨mg, hmg, -, -⟩ := pyMaxByEff_spec _ hg
      rw [hmg]
      rfl
  · dsimp only
    by_cases hk : ((r.selectCandidates t).filter (fun m => m.is_coder)).isEmpty
    · rw [if_pos hk, hmc]
      rfl
    · rw [if_neg hk]
      obtain ⟨mk, hmk, -, -⟩ := pyMaxByEff_spec _ hk
      rw [hmk]
      rfl

/-- Claim C1: `get_model_for_tier` returns `none` exactly when the
registry has no models at all; when the requested tier is empty the
candidates come from the first non-empty strictly higher tier searched in
ascending order, and only when no higher tier is non-empty from the first
non-empty strictly lower tier searched in descending order; and on a
registry whose only models are MEDIUM, a SMALL request returns the MEDIUM
model. -/
theorem C1_get_model_for_tier_fallback (r : ModelRegistry) (t t' : Tier)
    (pc : Bool) :
    (r.get_model_for_tier t pc = none ↔ r.models = []) ∧
    (r.by_tier t = [] → t < t' → r.by_tier t' ≠ [] →
      (∀ u, t < u → u < t' → r.by_tier u = []) →
      r.selectCandidates t = r.by_tier t') ∧
    (r.by_tier t = [] → (∀ u, t < u → r.by_tier u = []) →
      t' < t → r.by_tier t' ≠ [] →
      (∀ u, t' < u → u < t → r.by_tier u = []) →
      r.selectCandidates t = r.by_tier t') ∧
    ModelRegistry.get_model_for_tier
      { models := [("medium", { id := "medium", total_params := some 24,
                                tier := .MEDIUM })] } .SMALL pc =
      some { id := "medium", total_params := some 24, tier := .MEDIUM } := by
  refine ⟨?_, ?_, ?_, ?_⟩
  · constructor
    · intro h
      by_cases hc : (r.selectCandidates t).isEmpty
      · exact models_empty_of_selectCandidates_empty r t hc
      · have := get_isSome_of_candidates r t pc hc
        rw [h] at this
        cases this
    · intro h
      unfold ModelRegistry.get_model_for_tier
      rw [if_pos]
      rw [selectCandidates_eq]
      have hS := by_tier_of_models_empty r h .SMALL
      have hM := by_tier_of_models_empty r h .MEDIUM
      have hL := by_tier_of_models_empty r h .LARGE
      cases t <;> simp [hS, hM, hL]
  · intro h0 hlt hne hbet
    rw [selectCandidates_eq]
    have e0 : ∀ l : List ModelInfo, l = [] → l.isEmpty = true := fun l hl => by
      rw [hl]; rfl
    have e1 : ∀ l : List ModelInfo, l ≠ [] → l.isEmpty = false := fun l hl => by
      rw [Bool.eq_false_iff]
      intro hh
      exact hl (List.isEmpty_iff.mp hh)
    cases t with
    | SMALL =>
        cases t' with
        | SMALL => exact absurd hlt (by decide)
        | MEDIUM =>
            dsimp only
            rw [e0 _ h0, if_pos rfl, e1 _ hne, if_neg (by decide)]
        | LARGE =>
            dsimp only
            have hM : r.by_tier .MEDIUM = [] := hbet .MEDIUM (by decide) (by decide)
            rw [e0 _ h0, if_pos rfl, e0 _ hM, if_pos rfl]
    | MEDIUM =>
        cases t' with
        | SMALL => exact absurd hlt (by decide)
        | MEDIUM => exact absurd hlt (by decide)
        | LARGE =>
            dsimp only
            rw [e0 _ h0, if_pos rfl, e1 _ hne, if_neg (by decide)]
    | LARGE =>
        cases t' <;> exact absurd hlt (by decide)
  · intro h0 hhi hlt hne hbet
    rw [selectCandidates_eq]
    have e0 : ∀ l : List ModelInfo, l = [] → l.isEmpty = true := fun l hl => by
      rw [hl]; rfl
    have e1 : ∀ l : List ModelInfo, l ≠ [] → l.isEmpty = false := fun l hl => by
      rw [Bool.eq_false_iff]
      intro hh
      exact hl (List.isEmpty_iff.mp hh)
    cases t with
    | SMALL => cases t' <;> exact absurd hlt (by decide)
    | MEDIUM =>
        cases t' with
        | SMALL =>
            dsimp only
            have hL : r.by_tier .LARGE = [] := hhi .LARGE (by decide)
            rw [e0 _ h0, if_pos rfl, e0 _ hL, if_pos rfl]
        | MEDIUM => exact absurd hlt (by decide)
        | LARGE => exact absurd hlt (by decide)
    | LARGE =>
        cases t' with
        | SMALL =>
            dsimp only
            have hM : r.by_tier .MEDIUM = [] := hbet .MEDIUM (by decide) (by decide)
            rw [e0 _ h0, if_pos rfl, e0 _ hM, if_pos rfl]
        | MEDIUM =>
            dsimp only
            rw [e0 _ h0, if_pos rfl, e1 _ hne, if_neg (by decide)]
        | LARGE => exact absurd hlt (by decide)
  · cases pc <;> rfl

/-- Witness for claim C1: on a registry whose only model is MEDIUM-tier, a
SMALL request's candidates are the MEDIUM slice (upward fallback to the
first non-empty strictly higher tier). -/
theorem C1_witness :
    ModelRegistry.selectCandidates
      { models := [("medium", { id := "medium", total_params := some 24,
                                tier := .MEDIUM })] } .SMALL =
      ModelRegistry.by_tier
        { models := [("medium", { id := "medium", total_params := some 24,
                                  tier := .MEDIUM })] } .MEDIUM :=
  (C1_get_model_for_tier_fallback
    { models := [("medium", { id := "medium", total_params := some 24,
                              tier := .MEDIUM })] } .SMALL .MEDIUM false).2.1
    (by rfl) (by decide) (by decide)
    (fun u h1 h2 => by
      cases u
      · exact absurd h1 (by decide)
      · exact absurd h2 (by decide)
      · exact absurd h2 (by decide))

/-- Outcome analysis of the adjacent-tier loop over two tiers that
returned a model. -/
lemma adjLoop_pair_some (r : ModelRegistry) (a b : Tier) (m : ModelInfo)
    (h : adjLoop r [a, b] = some m) :
    (¬((r.by_tier a).filter (fun x => !x.is_coder)).isEmpty ∧
      pyMaxByEff ((r.by_tier a).filter (fun x => !x.is_coder)) = some m) ∨
    (((r.by_tier a).filter (fun x => !x.is_coder)) = [] ∧
      ¬((r.by_tier b).filter (fun x => !x.is_coder)).isEmpty ∧
      pyMaxByEff ((r.by_tier b).filter (fun x => !x.is_coder)) = some m) := by
  by_cases h1 : ((r.by_tier a).filter (fun m => !m.is_coder)).isEmpty
  · by_cases h2 : ((r.by_tier b).filter (fun m => !m.is_coder)).isEmpty
    · exfalso
      simp only [adjLoop, if_pos h1, if_pos h2] at h
      cases h
    · refine Or.inr ⟨List.isEmpty_iff.mp h1, h2, ?_⟩
      simp only [adjLoop, if_pos h1, if_neg h2] at h
      exact h
  · refine Or.inl ⟨h1, ?_⟩
    simp only [adjLoop, if_neg h1] at h
    exact h

/-- Outcome analysis of the adjacent-tier loop over two tiers that found
nothing: both non-coder slices are empty. -/
lemma adjLoop_pair_none (r : ModelRegistry) (a b : Tier)
    (h : adjLoop r [a, b] = none) :
    ((r.by_tier a).filter (fun x => !x.is_coder)) = [] ∧
    ((r.by_tier b).filter (fun x => !x.is_coder)) = [] := by
  by_cases h1 : ((r.by_tier a).filter (fun m => !m.is_coder)).isEmpty
  · by_cases h2 : ((r.by_tier b).filter (fun m => !m.is_coder)).isEmpty
    · exact ⟨List.isEmpty_iff.mp h1, List.isEmpty_iff.mp h2⟩
    · exfalso
      simp only [adjLoop, if_pos h1, if_neg h2] at h
      obtain ⟨v, hv, -, -⟩ := pyMaxByEff_spec _ h2
      rw [hv] at h
      cases h
  · exfalso
    simp only [adjLoop, if_neg h1] at h
    obtain ⟨v, hv, -, -⟩ := pyMaxByEff_spec _ h1
    rw [hv] at h
    cases h

/-- A non-empty requested tier needs no fallback. -/
lemma selectCandidates_of_nonempty (r : ModelRegistry) (t : Tier)
    (h : ¬(r.by_tier t).isEmpty) : r.selectCandidates t = r.by_tier t := by
  have e1 : (r.by_tier t).isEmpty = false := by
    rw [Bool.eq_false_iff]
    exact h
  rw [selectCandidates_eq]
  cases t <;> dsimp only <;> rw [e1, if_neg (by decide)]

/-- Claim C2: with `prefer_coder = false` on a non-empty registry —
(a) if the selected candidate tier holds a non-coder, the result is the
largest-`effective_params` non-coder among the candidates; (b) if every
candidate is a coder, the other tiers are searched in enumeration order
(ascending `Tier.val`) and the result is the largest non-coder of the
first other tier that has one; (c) if no non-coder exists in any tier, the
result is the largest candidate regardless of coder status. -/
theorem C2_noncoder_preference (r : ModelRegistry) (t : Tier)
    (hne : r.models ≠ []) :
    (¬((r.selectCandidates t).filter (fun m => !m.is_coder)).isEmpty →
       ∃ m, r.get_model_for_tier t false = some m ∧
         m ∈ (r.selectCandidates t).filter (fun m => !m.is_coder) ∧
         ∀ x ∈ (r.selectCandidates t).filter (fun m => !m.is_coder),
           x.effective_params ≤ m.effective_params) ∧
    (((r.selectCandidates t).filter (fun m => !m.is_coder)).isEmpty →
       ∀ m, r.adjSearch t = some m →
         r.get_model_for_tier t false = some m ∧
         ∃ ft, ft ≠ t ∧
           m ∈ (r.by_tier ft).filter (fun x => !x.is_coder) ∧
           (∀ x ∈ (r.by_tier ft).filter (fun x => !x.is_coder),
              x.effective_params ≤ m.effective_params) ∧
           ∀ ft', ft' ≠ t → ft'.val < ft.val →
             (r.by_tier ft').filter (fun x => !x.is_coder) = []) ∧
    (((r.selectCandidates t).filter (fun m => !m.is_coder)).isEmpty →
       r.adjSearch t = none →
         (∀ ft, (r.by_tier ft).filter (fun x => !x.is_coder) = []) ∧
         ∃ m, r.get_model_for_tier t false = some m ∧
           m ∈ r.selectCandidates t ∧
           ∀ x ∈ r.selectCandidates t,
             x.effective_params ≤ m.effective_params) := by
  have hcand : ¬(r.selectCandidates t).isEmpty := selectCandidates_ne_empty r t hne
  refine ⟨?_, ?_, ?_⟩
  · intro hg
    unfold ModelRegistry.get_model_for_tier
    dsimp only
    rw [if_neg hcand, if_neg (show ¬(false = true) by decide), if_neg hg]
    obtain ⟨m, hm, hmem, hall⟩ := pyMaxByEff_spec _ hg
    exact ⟨m, hm, hmem, hall⟩
  · intro hg m hadj
    constructor
    · unfold ModelRegistry.get_model_for_tier
      dsimp only
      rw [if_neg hcand, if_neg (show ¬(false = true) by decide), if_pos hg, hadj]
    · unfold ModelRegistry.adjSearch at hadj
      cases t with
      | SMALL =>
          rw [show tierList.filter (fun ft => ft ≠ Tier.SMALL) =
                [Tier.MEDIUM, Tier.LARGE] from by decide] at hadj
          rcases adjLoop_pair_some r _ _ m hadj with ⟨h1, hmax⟩ | ⟨h1, h2, hmax⟩
          · obtain ⟨v, hv, hvm, hva⟩ := pyMaxByEff_spec _ h1
            rw [hv] at hmax
            obtain rfl : v = m := Option.some.inj hmax
            refine ⟨.MEDIUM, by decide, hvm, hva, ?_⟩
            intro ft' hne' hlt'
            cases ft'
            · exact absurd rfl hne'
            · exact absurd hlt' (by decide)
            · exact absurd hlt' (by decide)
          · obtain ⟨v, hv, hvm, hva⟩ := pyMaxByEff_spec _ h2
            rw [hv] at hmax
            obtain rfl : v = m := Option.some.inj hmax
            refine ⟨.LARGE, by decide, hvm, hva, ?_⟩
            intro ft' hne' hlt'
            cases ft'
            · exact absurd rfl hne'
            · exact h1
            · exact absurd hlt' (by decide)
      | MEDIUM =>
          rw [show tierList.filter (fun ft => ft ≠ Tier.MEDIUM) =
                [Tier.SMALL, Tier.LARGE] from by decide] at hadj
          rcases adjLoop_pair_some r _ _ m hadj with ⟨h1, hmax⟩ | ⟨h1, h2, hmax⟩
          · obtain ⟨v, hv, hvm, hva⟩ := pyMaxByEff_spec _ h1
            rw [hv] at hmax
            obtain rfl : v = m := Option.some.inj hmax
            refine ⟨.SMALL, by decide, hvm, hva, ?_⟩
            intro ft' hne' hlt'
            cases ft'
            · exact absurd hlt' (by decide)
            · exact absurd rfl hne'
            · exact absurd hlt' (by decide)
          · obtain ⟨v, hv, hvm, hva⟩ := pyMaxByEff_spec _ h2
            rw [hv] at hmax
            obtain rfl : v = m := Option.some.inj hmax
            refine ⟨.LARGE, by decide, hvm, hva, ?_⟩
            intro ft' hne' hlt'
            cases ft'
            · exact h1
            · exact absurd rfl hne'
            · exact absurd hlt' (by decide)
      | LARGE =>
          rw [show tierList.filter (fun ft => ft ≠ Tier.LARGE) =
                [Tier.SMALL, Tier.MEDIUM] from by decide] at hadj
          rcases adjLoop_pair_some r _ _ m hadj with ⟨h1, hmax⟩ | ⟨h1, h2, hmax⟩
          · obtain ⟨v, hv, hvm, hva⟩ := pyMaxByEff_spec _ h1
            rw [hv] at hmax
            obtain rfl : v = m := Option.some.inj hmax
            refine ⟨.SMALL, by decide, hvm, hva, ?_⟩
            intro ft' hne' hlt'
            cases ft'
            · exact absurd hlt' (by decide)
            · exact absurd hlt' (by decide)
            · exact absurd rfl hne'
          · obtain ⟨v, hv, hvm, hva⟩ := pyMaxByEff_spec _ h2
            rw [hv] at hmax
            obtain rfl : v = m := Option.some.inj hmax
            refine ⟨.MEDIUM, by decide, hvm, hva, ?_⟩
            intro ft' hne' hlt'
            cases ft'
            · exact h1
            · exact absurd hlt' (by decide)
            · exact absurd rfl hne'
  · intro hg hnone
    have hother : ∀ ft, ft ≠ t →
        (r.by_tier ft).filter (fun x => !x.is_coder) = [] := by
      unfold ModelRegistry.adjSearch at hnone
      cases t with
      | SMALL =>
          rw [show tierList.filter (fun ft => ft ≠ Tier.SMALL) =
                [Tier.MEDIUM, Tier.LARGE] from by decide] at hnone
          obtain ⟨hM, hL⟩ := adjLoop_pair_none r _ _ hnone
          intro ft hft
          cases ft
          · exact absurd rfl hft
          · exact hM
          · exact hL
      | MEDIUM =>
          rw [show tierList.filter (fun ft => ft ≠ Tier.MEDIUM) =
                [Tier.SMALL, Tier.LARGE] from by decide] at hnone
          obtain ⟨hS, hL⟩ := adjLoop_pair_none r _ _ hnone
          intro ft hft
          cases ft
          · exact hS
          · exact absurd rfl hft
          · exact hL
      | LARGE =>
          rw [show tierList.filter (fun ft => ft ≠ Tier.LARGE) =
                [Tier.SMALL, Tier.MEDIUM] from by decide] at hnone
          obtain ⟨hS, hM⟩ := adjLoop_pair_none r _ _ hnone
          intro ft hft
          cases ft
          · exact hS
          · exact hM
          · exact absurd rfl hft
    refine ⟨?_, ?_⟩
    · intro ft
      by_cases hft : ft = t
      · subst hft
        by_cases hbt : (r.by_tier ft).isEmpty
        · rw [List.isEmpty_iff.mp hbt]
          rfl
        · rw [← selectCandidates_of_nonempty r ft hbt]
          exact List.isEmpty_iff.mp hg
      · exact hother ft hft
    · unfold ModelRegistry.get_model_for_tier
      dsimp only
      rw [if_neg hcand, if_neg (show ¬(false = true) by decide), if_pos hg, hnone]
      obtain ⟨m, hm, hmem, hall⟩ := pyMaxByEff_spec _ hcand
      exact ⟨m, hm, hmem, hall⟩

/-- Witness for claim C2: on a registry whose LARGE tier holds only a
coder, a non-coder-preferring LARGE request falls back to the SMALL
tier's non-coder — the first other tier in enumeration order with one. -/
theorem C2_witness :
    ModelRegistry.get_model_for_tier
      { models :=
          [("lc", { id := "lc", total_params := some 40, tier := .LARGE,
                    is_coder := true }),
           ("s", { id := "s", total_params := some 1, tier := .SMALL }),
           ("m", { id := "m", total_params := some 10, tier := .MEDIUM })] }
      .LARGE false =
      some { id := "s", total_params := some 1, tier := .SMALL } := by
  have h := ((C2_noncoder_preference
      { models :=
          [("lc", { id := "lc", total_params := some 40, tier := .LARGE,
                    is_coder := true }),
           ("s", { id := "s", total_params := some 1, tier := .SMALL }),
           ("m", { id := "m", total_params := some 10, tier := .MEDIUM })] }
      .LARGE (by decide)).2.1 (by decide)
      { id := "s", total_params := some 1, tier := .SMALL } (by rfl)).1
  exact h

end SmartRouter
